import Mathlib

/-
Verification development for the diffusionkit support library
(src/diffusionkit/modules/utils.py and src/loader.py).

The Python source is shallowly embedded: pure helpers become Lean
functions, fallible code returns Except, Python integers become Nat/Int
(Python floor division // on nonnegative integers is Nat division), and
PIL images are modelled at the dimension level (width and height), since
the claims under study only concern sizes and control flow.  External
library state (the torch global RNG, the file system, importlib) is made
explicit: the RNG is an abstract deterministic generator threaded through
the code, and the loader takes its environment (checkpoint table, config
reader, constructors) as an explicit record.
-/

namespace DiffusionKit

/-! ## Tensors and append_dims (utils.py lines 59-64) -/

/-- A torch tensor, modelled by its shape and its (flat) payload. -/
structure Tensor (α : Type) where
  shape : List Nat
  data : List α
  deriving DecidableEq

/-- Python x.ndim : the rank of the tensor. -/
def Tensor.ndim {α : Type} (x : Tensor α) : Nat := x.shape.length

/-- Embedding of append_dims: computes dims_to_append = target_dims - x.ndim,
raises ValueError when negative, otherwise indexes with (..., None, ..., None),
which appends that many trailing singleton dimensions. -/
def append_dims {α : Type} (x : Tensor α) (target_dims : Int) : Except String (Tensor α) :=
  let dims_to_append : Int := target_dims - (x.ndim : Int)
  if dims_to_append < 0 then
    Except.error ("input has " ++ toString x.ndim ++ " dims but target_dims is " ++
      toString target_dims ++ ", which is less")
  else
    Except.ok { shape := x.shape ++ List.replicate dims_to_append.toNat 1, data := x.data }

/-! ## PIL images and resize_image (utils.py lines 75-113)

PIL is external; images are modelled by their size.  Image.resize returns an
image of exactly the requested size (the resample filter and the optional
source-crop box only affect pixel content, which the model abstracts), and
Image.paste leaves the canvas size unchanged.  Python float ratio
comparisons width/height > im.width/im.height are embedded as the exact
cross-multiplied integer comparisons. -/

/-- A PIL image, modelled by its dimensions. -/
structure PILImage where
  width : Nat
  height : Nat
  deriving DecidableEq

/-- PIL Image.resize: the result has exactly the requested size. -/
def PILImage.resize (im : PILImage) (size : Nat × Nat) : PILImage :=
  { width := size.1, height := size.2 }

/-- PIL Image.new: a fresh (transparent) canvas of the given size. -/
def Image.new (size : Nat × Nat) : PILImage :=
  { width := size.1, height := size.2 }

/-- PIL Image.paste: pasting changes pixels, never the canvas size. -/
def PILImage.paste (canvas : PILImage) (im : PILImage) (box : Int × Int) : PILImage :=
  canvas

/-- The interior size computed by the pad branch of resize_image
(utils.py lines 87-88):
src_w = width if ratio > src_ratio else im.width * height // im.height and
src_h = height if ratio <= src_ratio else im.height * width // im.width. -/
def pad_src_size (im : PILImage) (width height : Nat) : Nat × Nat :=
  (if width * im.height > im.width * height then width else im.width * height / im.height,
   if ¬ (width * im.height > im.width * height) then height else im.height * width / im.width)

/-- Embedding of resize_image.  Returns none for an unrecognized mode, where
the Python code would hit an unbound local res.  The early return when the
source already has the requested size comes first, before any mode dispatch. -/
def resize_image (im : PILImage) (width height : Nat) (mode : String) : Option PILImage :=
  if im.width = width ∧ im.height = height then
    some im
  else if mode = "stretch" then
    some (im.resize (width, height))
  else if mode = "pad" then
    let src_w := (pad_src_size im width height).1
    let src_h := (pad_src_size im width height).2
    let resized := im.resize (src_w, src_h)
    let res := Image.new (width, height)
    some (res.paste resized (((width / 2 : Nat) : Int) - ((src_w / 2 : Nat) : Int),
      ((height / 2 : Nat) : Int) - ((src_h / 2 : Nat) : Int)))
  else if mode = "repeat" then
    let src_w := if width * im.height < im.width * height then width
      else im.width * height / im.height
    let src_h := if ¬ (width * im.height < im.width * height) then height
      else im.height * width / im.width
    let resized := im.resize (src_w, src_h)
    let res0 := Image.new (width, height)
    let res1 := res0.paste resized (((width / 2 : Nat) : Int) - ((src_w / 2 : Nat) : Int),
      ((height / 2 : Nat) : Int) - ((src_h / 2 : Nat) : Int))
    let res2 :=
      if width * im.height < im.width * height then
        let fill_height := height / 2 - src_h / 2
        (res1.paste (resized.resize (width, fill_height)) (0, 0)).paste
          (resized.resize (width, fill_height)) (0, ((fill_height : Nat) : Int) + (src_h : Int))
      else if im.width * height < width * im.height then
        let fill_width := width / 2 - src_w / 2
        (res1.paste (resized.resize (fill_width, height)) (0, 0)).paste
          (resized.resize (fill_width, height)) (((fill_width : Nat) : Int) + (src_w : Int), 0)
      else res1
    some res2
  else
    none

/-! ## Claim theorems for append_dims and resize_image -/

/-- Claim C3: for every tensor x of rank r and target_dims n, if n is at least
r then append_dims returns a tensor of rank n whose first r dimensions and
data equal those of x, with exactly n - r trailing singleton dimensions
appended; if n is smaller than r it fails with an invalid-argument error whose
message reports both r and n. -/
theorem append_dims_spec (α : Type) (x : Tensor α) (n : Nat) :
    (x.ndim ≤ n →
      append_dims x (n : Int) =
        Except.ok { shape := x.shape ++ List.replicate (n - x.ndim) 1, data := x.data } ∧
      ∀ y : Tensor α, append_dims x (n : Int) = Except.ok y →
        y.ndim = n ∧ y.shape.take x.ndim = x.shape ∧
        y.shape.drop x.ndim = List.replicate (n - x.ndim) 1 ∧ y.data = x.data) ∧
    (n < x.ndim →
      append_dims x (n : Int) =
        Except.error ("input has " ++ toString x.ndim ++ " dims but target_dims is " ++
          toString (n : Int) ++ ", which is less")) := by
  constructor
  · intro hle
    have hnn : ¬ ((n : Int) - (x.ndim : Int) < 0) := by omega
    have htn : ((n : Int) - (x.ndim : Int)).toNat = n - x.ndim := by omega
    have heq : append_dims x (n : Int) =
        Except.ok { shape := x.shape ++ List.replicate (n - x.ndim) 1, data := x.data } := by
      simp only [append_dims]
      rw [if_neg hnn, htn]
    refine ⟨heq, ?_⟩
    intro y hy
    rw [heq] at hy
    cases hy
    refine ⟨?_, ?_, ?_, rfl⟩
    · simp only [Tensor.ndim, List.length_append, List.length_replicate]
      have : x.shape.length ≤ n := hle
      omega
    · exact List.take_left x.shape _
    · exact List.drop_left x.shape _
  · intro hlt
    have hneg : ((n : Int) - (x.ndim : Int) < 0) := by omega
    simp only [append_dims]
    rw [if_pos hneg]

/-- Witness for C3: a rank-1 tensor taken to rank 3, and the failing rank-0
request on the same tensor with its exact error message. -/
theorem append_dims_spec_witness :
    append_dims (⟨[2], [5, 6]⟩ : Tensor Nat) ((3 : Nat) : Int) =
      Except.ok { shape := [2, 1, 1], data := [5, 6] } ∧
    append_dims (⟨[2], [5, 6]⟩ : Tensor Nat) ((0 : Nat) : Int) =
      Except.error ("input has 1 dims but target_dims is 0, which is less") := by
  constructor
  · exact ((append_dims_spec Nat ⟨[2], [5, 6]⟩ 3).1 (by decide)).1
  · exact (append_dims_spec Nat ⟨[2], [5, 6]⟩ 0).2 (by decide)

/-- Claim C1 (code-bug evidence): on a 100 x 200 source resized to 200 x 100
in pad mode, the aspect-ratio-preserving interior computed by the code is
200 x 400, whose height exceeds the target height 100, so source content is
cropped rather than padded; the returned canvas is 200 x 100. -/
theorem resize_image_pad_crops :
    pad_src_size ⟨100, 200⟩ 200 100 = (200, 400) ∧
    ¬ ((pad_src_size ⟨100, 200⟩ 200 100).2 ≤ 100) ∧
    resize_image ⟨100, 200⟩ 200 100 "pad" = some ⟨200, 100⟩ := by
  decide

/-- Claim C4: when the source image already has the requested width and
height, resize_image returns the input image itself, for every mode,
performing no resampling. -/
theorem resize_image_identity (im : PILImage) (w h : Nat) (mode : String)
    (hw : im.width = w) (hh : im.height = h) :
    resize_image im w h mode = some im := by
  simp only [resize_image]
  rw [if_pos ⟨hw, hh⟩]

/-- Witness for C4: a 64 x 64 image resized to 64 x 64 in repeat mode is
returned unchanged. -/
theorem resize_image_identity_witness :
    resize_image ⟨64, 64⟩ 64 64 ("repeat") = some ⟨64, 64⟩ :=
  resize_image_identity ⟨64, 64⟩ 64 64 ("repeat") rfl rfl

/-! ## get_ancestral_step (utils.py lines 46-53)

Python float arithmetic is modelled over the reals: x ** 0.5 on a
nonnegative float is the square root, and the guard if not eta is the test
eta == 0 for a numeric eta. -/

/-- Embedding of get_ancestral_step.  Returns (sigma_down, sigma_up). -/
noncomputable def get_ancestral_step (sigma_from sigma_to eta : ℝ) : ℝ × ℝ :=
  if eta = 0 then (sigma_to, 0)
  else
    let sigma_up := min sigma_to
      (eta * Real.sqrt (sigma_to ^ 2 * (sigma_from ^ 2 - sigma_to ^ 2) / sigma_from ^ 2))
    let sigma_down := Real.sqrt (sigma_to ^ 2 - sigma_up ^ 2)
    (sigma_down, sigma_up)

theorem sqrt_three_sixteenth_le_half : Real.sqrt (3 / 16) ≤ 1 / 2 := by
  have h : Real.sqrt (3 / 16) ≤ Real.sqrt ((1 / 2) ^ 2) :=
    Real.sqrt_le_sqrt (by norm_num)
  rwa [Real.sqrt_sq (by norm_num : (0:ℝ) ≤ 1 / 2)] at h

/-- Evaluation of get_ancestral_step at sigma_from = 1, sigma_to = 1/2,
eta = 1: sigma_up is sqrt(3/16) and sigma_down is exactly 1/4. -/
theorem get_ancestral_step_at_one_half :
    get_ancestral_step 1 (1 / 2) 1 = (1 / 4, Real.sqrt (3 / 16)) := by
  simp only [get_ancestral_step]
  rw [if_neg (one_ne_zero)]
  have harg : ((1:ℝ) / 2) ^ 2 * ((1:ℝ) ^ 2 - ((1:ℝ) / 2) ^ 2) / (1:ℝ) ^ 2 = 3 / 16 := by
    norm_num
  rw [harg, one_mul, min_eq_right sqrt_three_sixteenth_le_half]
  have hup : Real.sqrt (3 / 16) ^ 2 = 3 / 16 := Real.sq_sqrt (by norm_num)
  have hdown : ((1:ℝ) / 2) ^ 2 - Real.sqrt (3 / 16) ^ 2 = (1 / 4) ^ 2 := by
    rw [hup]; norm_num
  rw [hdown, Real.sqrt_sq (by norm_num : (0:ℝ) ≤ 1 / 4)]

/-- Claim C2 counterexample: at sigma_from = 1, sigma_to = 0.5, eta = 1 the
returned sigma_down equals 1/4 = 0.25 exactly, which is not approximately
0.2887 (it differs from 0.2887 by more than 0.03). -/
theorem get_ancestral_step_sigma_down_not_2887 :
    (get_ancestral_step 1 (1 / 2) 1).1 = 1 / 4 ∧
    0.03 < |(get_ancestral_step 1 (1 / 2) 1).1 - 0.2887| := by
  rw [get_ancestral_step_at_one_half]
  constructor
  · rfl
  · rw [show ((1:ℝ) / 4, Real.sqrt (3 / 16)).1 - 0.2887 = -(0.0387) by norm_num, abs_neg,
      abs_of_pos (by norm_num : (0:ℝ) < 0.0387)]
    norm_num

/-- Claim C2 as amended: get_ancestral_step(1, 0.5, 1) returns
sigma_up = min(0.5, sqrt(0.25 * 0.75)) which is approximately 0.4330, and
sigma_down = sqrt(0.25 - sigma_up ^ 2) = 0.25 exactly (not 0.2887); and for
every sigma_from and sigma_to, calling with eta = 0 returns exactly
(sigma_to, 0). -/
theorem get_ancestral_step_values :
    ((get_ancestral_step 1 (1 / 2) 1).2 =
        min (1 / 2) (Real.sqrt ((1 / 4) * (1 - 1 / 4))) ∧
      |(get_ancestral_step 1 (1 / 2) 1).2 - 0.4330| ≤ 0.0001 ∧
      (get_ancestral_step 1 (1 / 2) 1).1 =
        Real.sqrt (1 / 4 - (get_ancestral_step 1 (1 / 2) 1).2 ^ 2) ∧
      (get_ancestral_step 1 (1 / 2) 1).1 = 1 / 4) ∧
    ∀ sigma_from sigma_to : ℝ, get_ancestral_step sigma_from sigma_to 0 = (sigma_to, 0) := by
  have hval := get_ancestral_step_at_one_half
  have harg : ((1:ℝ) / 4) * (1 - 1 / 4) = 3 / 16 := by norm_num
  refine ⟨⟨?_, ?_, ?_, ?_⟩, ?_⟩
  · rw [hval, harg, min_eq_right sqrt_three_sixteenth_le_half]
  · rw [hval]
    have hlow : (0.4329 : ℝ) ≤ Real.sqrt (3 / 16) := by
      have h : Real.sqrt ((0.4329 : ℝ) ^ 2) ≤ Real.sqrt (3 / 16) :=
        Real.sqrt_le_sqrt (by norm_num)
      rwa [Real.sqrt_sq (by norm_num : (0:ℝ) ≤ 0.4329)] at h
    have hhigh : Real.sqrt (3 / 16) ≤ (0.4331 : ℝ) := by
      have h : Real.sqrt (3 / 16) ≤ Real.sqrt ((0.4331 : ℝ) ^ 2) :=
        Real.sqrt_le_sqrt (by norm_num)
      rwa [Real.sqrt_sq (by norm_num : (0:ℝ) ≤ 0.4331)] at h
    rw [abs_le]
    constructor <;> simp only <;> linarith
  · rw [hval]
    have hup : Real.sqrt (3 / 16) ^ 2 = 3 / 16 := Real.sq_sqrt (by norm_num)
    simp only
    rw [hup]
    have : (1 : ℝ) / 4 - 3 / 16 = (1 / 4) ^ 2 := by norm_num
    rw [this, Real.sqrt_sq (by norm_num : (0:ℝ) ≤ 1 / 4)]
  · rw [hval]
  · intro sigma_from sigma_to
    simp [get_ancestral_step]

/-! ## Python error kinds used by the embedded functions -/

/-- The Python exception kinds raised by the embedded code. -/
inductive PyError where
  | keyError (msg : String)
  | typeError (msg : String)
  | valueError (msg : String)
  | indexError (msg : String)
  deriving DecidableEq

/-! ## exists and default (utils.py lines 152-159) -/

/-- Embedding of exists: x is not None.  Python None is Option.none. -/
def exists' {α : Type} (x : Option α) : Bool := x.isSome

/-- The second argument of default: either a plain value or a zero-argument
function (inspect.isfunction distinguishes the two). -/
inductive Dflt (α : Type) where
  | value (v : Option α)
  | fn (f : Unit → Option α)

/-- Embedding of inspect.isfunction restricted to the two shapes above. -/
def isfunction {α : Type} : Dflt α → Bool
  | .fn _ => true
  | .value _ => false

/-- Embedding of default: returns val if it exists, otherwise calls d when d
is a function and returns d itself when it is not. -/
def default {α : Type} (val : Option α) (d : Dflt α) : Option α :=
  if exists' val then val
  else match d with
    | .fn f => f ()
    | .value v => v

/-- Claim C7: default returns val when val exists (is not None); otherwise it
returns the result of calling d when d is a zero-argument function, and d
itself when it is not. -/
theorem default_spec (α : Type) (val : Option α) (d : Dflt α) :
    (exists' val = true ↔ val ≠ none) ∧
    (exists' val = true → default val d = val) ∧
    (exists' val = false → ∀ f, d = Dflt.fn f → default val d = f ()) ∧
    (exists' val = false → ∀ v, d = Dflt.value v → default val d = v) := by
  refine ⟨?_, ?_, ?_, ?_⟩
  · cases val <;> simp [exists']
  · intro h
    simp [default, h]
  · intro h f hf
    subst hf
    simp [default, h]
  · intro h v hv
    subst hv
    simp [default, h]

/-- Witness for C7: concrete evaluations of all three behaviors. -/
theorem default_spec_witness :
    default (some 3) (Dflt.value none) = some 3 ∧
    default (none : Option Nat) (Dflt.fn (fun _ => some 7)) = some 7 ∧
    default (none : Option Nat) (Dflt.value (some 9)) = some 9 := by
  refine ⟨?_, ?_, ?_⟩
  · exact (default_spec Nat (some 3) (Dflt.value none)).2.1 rfl
  · exact (default_spec Nat none (Dflt.fn (fun _ => some 7))).2.2.1 rfl _ rfl
  · exact (default_spec Nat none (Dflt.value (some 9))).2.2.2 rfl _ rfl

/-! ## instantiate_from_config (utils.py lines 177-184)

A config is either a Python string or a dict.  The Python test
"target" in config is key membership for a dict and substring containment
for a string; config == "sentinel" is true only when config is that very
string.  Dynamic class resolution by get_obj_from_str is external
(importlib); the constructed object is represented symbolically by the
target path and the params it would be built from. -/

/-- A value stored in a config dict: the target path string or a params
dict of constructor keyword arguments. -/
inductive CfgVal where
  | str (s : String)
  | params (kv : List (String × String))
  deriving DecidableEq

/-- A configuration record: a raw string or a dict. -/
inductive PyConfig where
  | str (s : String)
  | dict (entries : List (String × CfgVal))
  deriving DecidableEq

/-- First key lookup in a dict (keys are unique in a Python dict). -/
def dictLookup (es : List (String × CfgVal)) (k : String) : Option CfgVal :=
  (es.find? (fun e => e.1 == k)).map (fun e => e.2)

/-- Does the pattern occur at the head of the character list. -/
def startsWithChars : List Char → List Char → Bool
  | _, [] => true
  | [], _ :: _ => false
  | a :: as, b :: bs => a == b && startsWithChars as bs

/-- Substring containment on character lists. -/
def hasSubChars : List Char → List Char → Bool
  | [], pat => startsWithChars [] pat
  | a :: t, pat => startsWithChars (a :: t) pat || hasSubChars t pat

/-- Python substring test pat in s for strings. -/
def strContains (s pat : String) : Bool := hasSubChars s.toList pat.toList

/-- Python "target" in config: key membership for a dict, substring
containment for a string. -/
def config_has_target : PyConfig → Bool
  | .str s => strContains s ("target")
  | .dict es => (dictLookup es ("target")).isSome

/-- Python config == sentinel for a string sentinel: only a string config
can compare equal. -/
def config_eq_string : PyConfig → String → Bool
  | .str s, t => s == t
  | .dict _, _ => false

/-- The object built by get_obj_from_str(config["target"])(**params),
represented symbolically. -/
inductive PyObject where
  | inst (target : String) (params : List (String × String))
  deriving DecidableEq

/-- The params of the record: config.get("params", dict()). -/
def config_params (es : List (String × CfgVal)) : List (String × String) :=
  match dictLookup es ("params") with
  | some (.params kv) => kv
  | _ => []

/-- Embedding of instantiate_from_config.  Returns ok none (Python None)
for the two sentinels, a KeyError when target is absent otherwise, and the
symbolic instance when target is present in a dict.  A string config that
happens to contain the substring target would make Python index a str with
a str key, a TypeError. -/
def instantiate_from_config (config : PyConfig) : Except PyError (Option PyObject) :=
  if config_has_target config = false then
    if config_eq_string config ("__is_first_stage__") then Except.ok none
    else if config_eq_string config ("__is_unconditional__") then Except.ok none
    else Except.error (PyError.keyError ("Expected key `target` to instantiate."))
  else
    match config with
    | .str _ => Except.error (PyError.typeError ("string indices must be integers"))
    | .dict es =>
      match dictLookup es ("target") with
      | some (.str t) => Except.ok (some (PyObject.inst t (config_params es)))
      | _ => Except.error (PyError.typeError ("target is not a string path"))

theorem config_eq_string_iff (c : PyConfig) (t : String) :
    config_eq_string c t = true ↔ c = PyConfig.str t := by
  cases c <;> simp [config_eq_string]

/-- Claim C5: a configuration record without a target key returns None (ok
none) when it equals one of the two sentinel strings, and fails with a
missing-key error when it is neither sentinel. -/
theorem instantiate_from_config_no_target (config : PyConfig)
    (hno : config_has_target config = false) :
    ((config = PyConfig.str ("__is_first_stage__") ∨
        config = PyConfig.str ("__is_unconditional__")) →
      instantiate_from_config config = Except.ok none) ∧
    (config ≠ PyConfig.str ("__is_first_stage__") →
      config ≠ PyConfig.str ("__is_unconditional__") →
      instantiate_from_config config =
        Except.error (PyError.keyError ("Expected key `target` to instantiate."))) := by
  constructor
  · rintro (rfl | rfl) <;> rfl
  · intro h1 h2
    have e1 : config_eq_string config ("__is_first_stage__") = false := by
      rw [Bool.eq_false_iff]
      intro hT
      exact h1 ((config_eq_string_iff config _).1 hT)
    have e2 : config_eq_string config ("__is_unconditional__") = false := by
      rw [Bool.eq_false_iff]
      intro hT
      exact h2 ((config_eq_string_iff config _).1 hT)
    simp [instantiate_from_config, hno, e1, e2]

/-- Witness for C5: the unconditional sentinel yields None, and an empty
dict yields the KeyError. -/
theorem instantiate_from_config_no_target_witness :
    instantiate_from_config (PyConfig.str ("__is_unconditional__")) = Except.ok none ∧
    instantiate_from_config (PyConfig.dict []) =
      Except.error (PyError.keyError ("Expected key `target` to instantiate.")) := by
  constructor
  · exact (instantiate_from_config_no_target (PyConfig.str ("__is_unconditional__"))
      (by decide)).1 (Or.inr rfl)
  · exact (instantiate_from_config_no_target (PyConfig.dict []) (by decide)).2
      (by decide) (by decide)

/-! ## The model loader (src/loader.py)

The loader environment makes the external world explicit: the checkpoint
table from config.py, OmegaConf.load of configs/<name>.yaml, the dynamic
class construction and the checkpoint application (torch.load,
load_state_dict, half, cuda, eval) are abstract functions of the
environment.  load returns the outcome, the list of config paths read, and
the registry after the call; the Python registry update models[name] =
model overwrites an existing entry. -/

/-- A constructed torch model object, identified symbolically. -/
structure TorchModule where
  tag : Nat
  deriving DecidableEq

/-- The parsed model section of a yaml config: model.target and
model.params. -/
structure LoaderConfig where
  target : String
  params : List (String × String)

/-- The ambient world the loader interacts with. -/
structure LoaderEnv where
  checkpoint_files : List (String × String)
  read_config : String → LoaderConfig
  build : String → List (String × String) → TorchModule
  apply_checkpoint : TorchModule → String → TorchModule

/-- Lookup in a string-keyed table. -/
def lookupStr (tbl : List (String × String)) (k : String) : Option String :=
  (tbl.find? (fun e => e.1 == k)).map (fun e => e.2)

/-- Python dict assignment m[k] = v: overwrite or append. -/
def dictSet (m : List (String × TorchModule)) (k : String) (v : TorchModule) :
    List (String × TorchModule) :=
  if m.any (fun e => e.1 == k) then
    m.map (fun e => if e.1 == k then (k, v) else e)
  else m ++ [(k, v)]

/-- Embedding of load.  Returns (outcome, config file paths read, registry
after the call). -/
def load (env : LoaderEnv) (models : List (String × TorchModule)) (name : String) :
    Except String TorchModule × List String × List (String × TorchModule) :=
  match lookupStr env.checkpoint_files name with
  | none =>
      (Except.error ("no checkpoint file path specified for model \"" ++ name ++ "\""),
        [], models)
  | some checkpoint_path =>
      let config_path := "configs/" ++ name ++ ".yaml"
      let config := env.read_config config_path
      let model0 := env.build config.target config.params
      let model := env.apply_checkpoint model0 checkpoint_path
      (Except.ok model, [config_path], dictSet models name model)

/-- Claim C6: for every name absent from the checkpoint-file table, load
fails with the descriptive error naming the model, reads no config file,
and leaves the registry unchanged. -/
theorem load_missing_checkpoint (env : LoaderEnv)
    (models : List (String × TorchModule)) (name : String)
    (h : lookupStr env.checkpoint_files name = none) :
    load env models name =
      (Except.error ("no checkpoint file path specified for model \"" ++ name ++ "\""),
        ([] : List String), models) := by
  simp only [load, h]

/-- A concrete loader environment with a single registered checkpoint. -/
def loaderEnvW : LoaderEnv :=
  { checkpoint_files := [("sd-v1", "weights/sd-v1.ckpt")],
    read_config := fun _ => { target := "ldm.models.LatentDiffusion", params := [] },
    build := fun _ _ => { tag := 0 },
    apply_checkpoint := fun m _ => m }

/-- Witness for C6: loading a name that has no checkpoint entry fails with
the exact message and leaves the empty registry empty. -/
theorem load_missing_checkpoint_witness :
    load loaderEnvW [] ("missing-model") =
      (Except.error ("no checkpoint file path specified for model \"missing-model\""),
        ([] : List String), ([] : List (String × TorchModule))) := by
  exact load_missing_checkpoint loaderEnvW [] ("missing-model") (by decide)

/-! ## create_random_tensors (utils.py lines 66-73)

The torch global RNG is made explicit: its state is a Nat, torch.manual_seed
sets the state to the seed, and torch.randn is an arbitrary deterministic
function from state and shape to a drawn tensor and the successor state.
The draws are collected in order and torch.stack makes them the leading
dimension, so the result is the list of draws in seed order. -/

/-- The torch random generator: from a state and a shape, a draw and the
next state.  T is the type of drawn tensors. -/
structure TorchGen (T : Type) where
  next : Nat → List Nat → T × Nat

/-- Embedding of create_random_tensors.  The fold threads the global RNG
state through the loop; each iteration first executes torch.manual_seed and
then torch.randn.  The first component of the result is the stacked list of
draws in seed order, the second the final RNG state. -/
def create_random_tensors {T : Type} (g : TorchGen T) (shape : List Nat)
    (seeds : List Nat) (s0 : Nat) : List T × Nat :=
  List.foldl
    (fun xs_state seed =>
      let state := seed
      let draw := g.next state shape
      (xs_state.1 ++ [draw.1], draw.2))
    ([], s0) seeds

theorem create_foldl_eq (T : Type) (g : TorchGen T) (shape : List Nat) :
    ∀ (seeds : List Nat) (acc : List T) (s0 : Nat),
      (List.foldl
        (fun xs_state seed =>
          ((xs_state.1 ++ [(g.next seed shape).1], (g.next seed shape).2) : List T × Nat))
        (acc, s0) seeds).1 = acc ++ seeds.map (fun seed => (g.next seed shape).1)
  | [], acc, s0 => by simp
  | s :: rest, acc, s0 => by
    simp only [List.foldl_cons, List.map_cons]
    rw [create_foldl_eq T g shape rest (acc ++ [(g.next s shape).1]) (g.next s shape).2]
    simp

theorem getD_map_of_lt (T : Type) (f : Nat → T) (t0 : T) :
    ∀ (l : List Nat) (i : Nat), i < l.length → (l.map f).getD i t0 = f (l.getD i 0)
  | a :: t, 0, _ => by simp
  | a :: t, i + 1, h => by
    simp only [List.map_cons, List.getD_cons_succ]
    exact getD_map_of_lt T f t0 t i (by simpa using h)
  | [], i, h => by simp at h

/-- Claim C8: create_random_tensors is deterministic per seed.  The output
is the list of per-seed draws in seed order with leading length equal to the
number of seeds, it is independent of the RNG state before the call (so two
calls with the same seed list agree), and two positions holding equal seeds
yield equal tensors. -/
theorem create_random_tensors_deterministic (T : Type) (g : TorchGen T)
    (shape : List Nat) (seeds : List Nat) (s0 s1 : Nat) :
    (create_random_tensors g shape seeds s0).1 =
      seeds.map (fun seed => (g.next seed shape).1) ∧
    (create_random_tensors g shape seeds s0).1.length = seeds.length ∧
    (create_random_tensors g shape seeds s0).1 = (create_random_tensors g shape seeds s1).1 ∧
    ∀ (t0 : T) (i j : Nat), i < seeds.length → j < seeds.length →
      seeds.getD i 0 = seeds.getD j 0 →
      (create_random_tensors g shape seeds s0).1.getD i t0 =
        (create_random_tensors g shape seeds s0).1.getD j t0 := by
  have hmap : ∀ s : Nat, (create_random_tensors g shape seeds s).1 =
      seeds.map (fun seed => (g.next seed shape).1) := by
    intro s
    show (List.foldl
      (fun xs_state seed =>
        ((xs_state.1 ++ [(g.next seed shape).1], (g.next seed shape).2) : List T × Nat))
      ([], s) seeds).1 = _
    rw [create_foldl_eq]
    simp
  refine ⟨hmap s0, ?_, ?_, ?_⟩
  · rw [hmap]
    simp
  · rw [hmap, hmap]
  · intro t0 i j hi hj hseed
    rw [hmap, getD_map_of_lt T _ t0 seeds i hi, getD_map_of_lt T _ t0 seeds j hj, hseed]

/-- A concrete deterministic generator used by the witness. -/
def torchGenW : TorchGen Nat :=
  { next := fun s _ => (2 * s + 1, s + 1) }

/-- Witness for C8: with the seed list [7, 7] the two stacked draws are
equal. -/
theorem create_random_tensors_deterministic_witness :
    (create_random_tensors torchGenW [4] [7, 7] 0).1.getD 0 0 =
      (create_random_tensors torchGenW [4] [7, 7] 0).1.getD 1 0 := by
  exact (create_random_tensors_deterministic Nat torchGenW [4] [7, 7] 0 0).2.2.2
    0 0 1 (by decide) (by decide) (by decide)

/-! ## parallel_data_prefetch (utils.py lines 207-258)

The claims under study concern the code that runs before any worker is
started: input validation and coercion (lines 214-229), partitioning and
argument construction (lines 238-254) and the construction of the n_proc
worker descriptors (lines 256-258), which indexes arguments[i] for
i < n_proc and raises IndexError when fewer argument tuples exist.  The
queue, the process or thread objects and the drain loop come later in the
source and are not part of this model. -/

/-- The shapes of data Python distinguishes here: a numpy array, a list,
a dict, or a non-iterable value (carrying its type name for the error
message). -/
inductive PyData (α : Type) where
  | ndarray (xs : List α)
  | pylist (xs : List α)
  | pydict (entries : List (String × α))
  | other (typeName : String)
  deriving DecidableEq

/-- The data after validation and coercion: a numpy array or a list, both
modelled along the leading axis. -/
inductive ProcData (α : Type) where
  | arr (xs : List α)
  | lst (xs : List α)
  deriving DecidableEq

/-- The elements of the processed data. -/
def ProcData.elems {α : Type} : ProcData α → List α
  | .arr xs => xs
  | .lst xs => xs

/-- Embedding of the validation and coercion block (lines 214-229).  The
Bool records whether the dict warning was printed. -/
def prefetch_convert {α : Type} (data : PyData α) (target_data_type : String) :
    Except PyError (ProcData α × Bool) :=
  match data with
  | .ndarray xs =>
    if target_data_type = "list" then
      Except.error (PyError.valueError ("list expected but function got ndarray."))
    else if target_data_type = "ndarray" then Except.ok (ProcData.arr xs, false)
    else Except.ok (ProcData.lst xs, false)
  | .pylist xs =>
    if target_data_type = "ndarray" then Except.ok (ProcData.arr xs, false)
    else Except.ok (ProcData.lst xs, false)
  | .pydict es =>
    if target_data_type = "ndarray" then
      Except.ok (ProcData.arr (es.map (fun e => e.2)), true)
    else Except.ok (ProcData.lst (es.map (fun e => e.2)), true)
  | .other t =>
    Except.error (PyError.typeError
      ("The data, that shall be processed parallel has to be either an np.ndarray or an Iterable, but is actually " ++ t ++ "."))

/-- numpy array_split into n sections along the leading axis: the first
len mod n sections have size len / n + 1, the rest size len / n. -/
def np_array_split {α : Type} (xs : List α) (n : Nat) : List (List α) :=
  (List.range n).map (fun i =>
    ((xs.drop (i * (xs.length / n) + min i (xs.length % n))).take
      (xs.length / n + (if i < xs.length % n then 1 else 0))))

/-- The list chunk size used for list output (lines 244-248):
int(len / n_proc + 1) when len mod n_proc is nonzero, int(len / n_proc)
otherwise; both equal the ceiling of len / n_proc. -/
def prefetch_step (len n_proc : Nat) : Nat :=
  if len % n_proc ≠ 0 then len / n_proc + 1 else len / n_proc

/-- The list comprehension [data[i : i + step] for i in range(0, len, step)]. -/
def list_chunks {α : Type} (xs : List α) (step : Nat) : List (List α) :=
  (List.range ((xs.length + step - 1) / step)).map (fun k => (xs.drop (k * step)).take step)

/-- The enumerated worker argument tuples (partition index and partition),
built by branching on target_data_type (lines 238-254). -/
def prefetch_arguments {α : Type} (target_data_type : String) (pd : ProcData α)
    (n_proc : Nat) : List (Nat × List α) :=
  if target_data_type = "ndarray" then (np_array_split pd.elems n_proc).enum
  else (list_chunks pd.elems (prefetch_step pd.elems.length n_proc)).enum

/-- The worker-construction loop for i in range(n_proc): ... arguments[i]
(lines 256-258): raises IndexError when fewer than n_proc argument tuples
exist. -/
def build_processes {α : Type} (arguments : List (Nat × List α)) (n_proc : Nat) :
    Except PyError (List (Nat × List α)) :=
  if n_proc ≤ arguments.length then Except.ok (arguments.take n_proc)
  else Except.error (PyError.indexError ("list index out of range"))

/-- Embedding of parallel_data_prefetch up to the point where workers would
be started: validation and coercion, partitioning, and worker
construction.  Returns the worker descriptors and the warning flag. -/
def parallel_data_prefetch_setup {α : Type} (data : PyData α) (n_proc : Nat)
    (target_data_type : String) : Except PyError (List (Nat × List α) × Bool) :=
  match prefetch_convert data target_data_type with
  | .error e => Except.error e
  | .ok (pd, warned) =>
    match build_processes (prefetch_arguments target_data_type pd n_proc) n_proc with
    | .error e => Except.error e
    | .ok ps => Except.ok (ps, warned)

/-- Claim C9: the input is validated before any worker exists: a numpy
array together with list output semantics is rejected with an
invalid-argument error; a dict proceeds exactly as the list of its values
would, except that the warning is printed; and a non-iterable input fails
with a type error. -/
theorem prefetch_validation (α : Type) (n_proc : Nat) (target_data_type : String) :
    (∀ xs : List α, target_data_type = "list" →
      parallel_data_prefetch_setup (PyData.ndarray xs) n_proc target_data_type =
        Except.error (PyError.valueError ("list expected but function got ndarray."))) ∧
    (∀ es : List (String × α),
      parallel_data_prefetch_setup (PyData.pydict es) n_proc target_data_type =
        Except.map (fun r => (r.1, true))
          (parallel_data_prefetch_setup (PyData.pylist (es.map (fun e => e.2)))
            n_proc target_data_type)) ∧
    (∀ t : String,
      parallel_data_prefetch_setup (PyData.other t : PyData α) n_proc target_data_type =
        Except.error (PyError.typeError
          ("The data, that shall be processed parallel has to be either an np.ndarray or an Iterable, but is actually " ++ t ++ "."))) := by
  refine ⟨?_, ?_, ?_⟩
  · intro xs ht
    subst ht
    simp [parallel_data_prefetch_setup, prefetch_convert]
  · intro es
    by_cases ht : target_data_type = "ndarray"
    · subst ht
      simp only [parallel_data_prefetch_setup, prefetch_convert, if_pos rfl]
      cases hb : build_processes
          (prefetch_arguments ("ndarray") (ProcData.arr (es.map (fun e => e.2))) n_proc)
          n_proc <;>
        simp [hb, Except.map]
    · simp only [parallel_data_prefetch_setup, prefetch_convert, if_neg ht]
      cases hb : build_processes
          (prefetch_arguments target_data_type (ProcData.lst (es.map (fun e => e.2))) n_proc)
          n_proc <;>
        simp [hb, Except.map]
  · intro t
    simp [parallel_data_prefetch_setup, prefetch_convert]

/-- Witness for C9: a concrete ndarray with target list is rejected. -/
theorem prefetch_validation_witness :
    parallel_data_prefetch_setup (PyData.ndarray [1, 2, 3]) 2 ("list") =
      Except.error (PyError.valueError ("list expected but function got ndarray.")) := by
  exact (prefetch_validation Nat 2 ("list")).1 [1, 2, 3] rfl

/-- Claim C10: for a non-empty list input with list output semantics, when
slicing the list into chunks of size ceil(len / n_proc) yields fewer than
n_proc chunks, parallel_data_prefetch raises IndexError while constructing
the workers, before any worker is started. -/
theorem prefetch_chunk_shortfall (α : Type) (data : List α) (n_proc : Nat)
    (hne : data ≠ []) (h1 : 1 ≤ n_proc)
    (hshort : (list_chunks data (prefetch_step data.length n_proc)).length < n_proc) :
    parallel_data_prefetch_setup (PyData.pylist data) n_proc ("list") =
      Except.error (PyError.indexError ("list index out of range")) := by
  have hconv : prefetch_convert (PyData.pylist data) ("list") =
      Except.ok (ProcData.lst data, false) := by
    simp [prefetch_convert]
  have hargs : prefetch_arguments ("list") (ProcData.lst data) n_proc =
      (list_chunks data (prefetch_step data.length n_proc)).enum := by
    simp [prefetch_arguments, ProcData.elems]
  have hlen : ¬ (n_proc ≤ (prefetch_arguments ("list") (ProcData.lst data) n_proc).length) := by
    rw [hargs, List.enum_length]
    omega
  simp [parallel_data_prefetch_setup, hconv, build_processes, hlen]

/-- Witness for C10: a 6-element list with n_proc = 4 gives chunk size 2,
hence only 3 chunks, and worker construction fails with IndexError. -/
theorem prefetch_chunk_shortfall_witness :
    parallel_data_prefetch_setup (PyData.pylist [0, 1, 2, 3, 4, 5]) 4 ("list") =
      Except.error (PyError.indexError ("list index out of range")) := by
  exact prefetch_chunk_shortfall Nat [0, 1, 2, 3, 4, 5] 4 (by decide) (by decide) (by decide)

end DiffusionKit
